import Mathlib

/-!
Shallow embedding of `pycurlbrowser/browser.py` (Python 2): the canned-response
registry with its best-fit matching (`post_data_present`, `post_best_fit`,
`canned_key_partial_subset`, `select_best_can`), the `Browser` navigation
path (`go`, `_setup_data`, `_setup_canned_response`, `_setup_http_response`
with its retry loop, `reset`), and the form-submission path (`form_submits`,
`form_submit`, `form_submit_no_button`, `form_submit_data`).

Modelling conventions:
* Python exceptions are the inductive `PyExc`; fallible code returns
  `Except PyExc _`.  `except KeyError` clauses are modelled by matching on
  the `keyError` constructor (Python catches exactly `KeyError` and its
  subclasses there; `IndexError` and `AttributeError` are not caught).
* Python dicts are association lists.  The canned-response registry is a
  `List (RequestKey × CannedResponse)`; Python 2 dict iteration order is
  unspecified, so it is modelled as list (insertion) order, which makes the
  stable sort in `post_best_fit` break ties in favour of the earliest
  candidate.  Theorems that depend on a tie are stated so that their truth
  value does not depend on this choice.
* Payload strings are kept in canonical (already url-encoded) form; the
  `urlencode` call inside `escape_data` belongs to the external codec and is
  out of scope, so payloads enter the model as `Option String` exactly as
  they key the registry.
* `str.split('&')`, `len`, `str.upper` and `'?' in url` are translated at the
  character-list level (`String.data`) so that every definition evaluates by
  kernel reduction; on the ASCII payloads involved they agree with Python 2
  byte strings.
-/

deriving instance DecidableEq for Except

/-- Python exception values observable in `browser.py`.  `offlineNoMatch` is
the `LookupError` raised by `go` in offline mode; it carries the attempted
key and the registry key list that Python interpolates into the message.
`pycurlError` is `pycurl.error` with its message, `assertionError` an
`assert` failure with its message, and `custom` stands for any other
exception object a test may store in a canned response. -/
inductive PyExc where
  | keyError : PyExc
  | indexError : PyExc
  | attributeError : PyExc
  | offlineNoMatch : (String × String × Option String) → List (String × String × Option String) → PyExc
  | pycurlError : String → PyExc
  | assertionError : String → PyExc
  | custom : Nat → PyExc
deriving DecidableEq, Repr

/-- A registry key `(url, method, data)` as used in
`self._canned_responses[url, method, data]`. -/
structure RequestKey where
  url : String
  method : String
  payload : Option String
deriving DecidableEq, Repr

/-- `CannedResponse.__init__`: code 200, no exception, zero roundtrip,
empty source.  `roundtrip` durations are abstracted to `Nat`. -/
structure CannedResponse where
  code : Nat := 200
  exception : Option PyExc := none
  roundtrip : Nat := 0
  src : String := ""
deriving DecidableEq, Repr

/-- `s.split(c)` on a character list: Python semantics, e.g. `""` splits to
`[""]` and `"a&&b"` to `["a", "", "b"]`. -/
def splitOnChar (c : Char) : List Char → List (List Char)
  | [] => [[]]
  | x :: xs =>
    match splitOnChar c xs, decide (x = c) with
    | r, true => [] :: r
    | h :: t, false => (x :: h) :: t
    | [], false => [[x]]

/-- The `setify` lambda in `post_data_present`: `set(s.split('&'))`.  The
result is used only through membership, so the set is kept as the token
list. -/
def setify (s : String) : List (List Char) :=
  splitOnChar '&' s.data

/-- `post_data_present(d_ref, d_in)`:
`len(setify(d_ref) - setify(d_in)) == 0`, i.e. every token of `d_ref`
occurs among the tokens of `d_in`. -/
def post_data_present (d_ref d_in : String) : Bool :=
  (setify d_ref).all (fun t => decide (t ∈ setify d_in))

/-- `abs(len(d) - comp)` where `comp = len(d_in)`. -/
def pydiff (d d_in : String) : Nat :=
  ((d.length : Int) - (d_in.length : Int)).natAbs

/-- The filtering loop of `post_best_fit`: walk the reference payloads in
order, keeping those for which `post_data_present` holds.  A `None`
reference payload reaches `d.split('&')` and crashes with
`AttributeError` (there is no non-None filter in the source). -/
def best_fit_survivors (d_in : String) : List (Option String) → Except PyExc (List String)
  | [] => .ok []
  | none :: _ => .error .attributeError
  | some d :: rest =>
    match best_fit_survivors d_in rest with
    | .error e => .error e
    | .ok l => .ok (if post_data_present d d_in then d :: l else l)

/-- Head of the candidate list after the stable sort by diff value: the
first candidate attaining the minimal diff.  (`diffs` is a dict keyed by
the payload string; since the diff is a function of the payload alone,
collapsing duplicate keys does not change this result.) -/
def argmin_first (f : String → Nat) : List String → Option String
  | [] => none
  | x :: xs =>
    match argmin_first f xs with
    | none => some x
    | some y => if f x ≤ f y then some x else some y

/-- `post_best_fit(d_in, *d_ref)`: filter by `post_data_present`, sort the
survivors stably by `abs(len(d) - len(d_in))`, return the head; raise
`IndexError` when no survivor exists (`e[0]` on an empty list, re-raised
with a message). -/
def post_best_fit (d_in : String) (d_ref : List (Option String)) : Except PyExc String :=
  match best_fit_survivors d_in d_ref with
  | .error e => .error e
  | .ok survivors =>
    match argmin_first (fun d => pydiff d d_in) survivors with
    | some d => .ok d
    | none => .error .indexError

/-- `canned_key_partial_subset(matcher, sample)`:
`[k[2] for k in sample if matcher == k[0:2]]`.  Note that `None` payloads
are NOT filtered out. -/
def canned_key_partial_subset (matcher : String × String) (sample : List RequestKey) : List (Option String) :=
  (sample.filter (fun k => decide (k.url = matcher.1 ∧ k.method = matcher.2))).map (·.payload)

/-- Python dict lookup `cans[key]` on the association-list model:
first binding wins (registrations never duplicate a key, cf.
`add_canned_response` overwriting in place). -/
def cans_get (cans : List (RequestKey × CannedResponse)) (k : RequestKey) : Option CannedResponse :=
  (cans.find? (fun p => decide (p.1 = k))).map (·.2)

/-- `select_best_can(url, method, data, cans)`: `data is None` keys straight
into the dict (raising `KeyError` on a miss); otherwise the best-fit payload
among the keys sharing `(url, method)` is looked up. -/
def select_best_can (url method : String) (data : Option String)
    (cans : List (RequestKey × CannedResponse)) : Except PyExc CannedResponse :=
  match data with
  | none =>
    match cans_get cans ⟨url, method, none⟩ with
    | some c => .ok c
    | none => .error .keyError
  | some d =>
    match post_best_fit d (canned_key_partial_subset (url, method) (cans.map Prod.fst)) with
    | .error e => .error e
    | .ok best =>
      match cans_get cans ⟨url, method, some best⟩ with
      | some c => .ok c
      | none => .error .keyError

/-- `method.upper()` (ASCII, matching Python 2 `str.upper` on byte strings). -/
def py_upper (s : String) : String :=
  String.mk (s.data.map Char.toUpper)

/-- A submit input element of the selected form, as seen by
`form_submits`' xpath over `input[@type='submit']`: its optional `name`
and `value` attributes. -/
structure SubmitInput where
  name : Option String := none
  value : Option String := none
deriving DecidableEq, Repr

/-- The selected form (`self._form`), reduced to what `browser.py` reads
off it: `method` (lxml always yields a string, defaulting to GET),
`action` (absent when the attribute is missing) and the submit inputs in
document order. -/
structure Form where
  method : String := "GET"
  action : Option String := none
  submits : List SubmitInput := []
deriving DecidableEq, Repr

/-- The mutable `Browser` state: `retries`, the canned-response dict,
`offline`, `_tree` (parsed document, abstracted to presence), `_form`,
`_form_data`, `_roundtrip`, `canned_url`, the content buffer `_buf`, and
the transport's current effective URL (`pycurl.EFFECTIVE_URL`). -/
structure BrowserState where
  retries : Nat := 0
  canned : List (RequestKey × CannedResponse) := []
  offline : Bool := false
  tree : Option Unit := none
  form : Option Form := none
  form_data : List (String × String) := []
  roundtrip : Option Nat := none
  canned_url : Option String := none
  buf : String := ""
  curl_url : String := ""
deriving DecidableEq, Repr

/-- `Browser.reset`: clear `_tree`, `_form`, `_form_data`, `_roundtrip`. -/
def Browser.reset (st : BrowserState) : BrowserState :=
  { st with tree := none, form := none, form_data := [], roundtrip := none }

/-- The `url` property: `canned_url` when set, else the transport's
effective URL. -/
def browser_url (st : BrowserState) : String :=
  st.canned_url.getD st.curl_url

/-- `self._buf.truncate(0)` at the top of `go`. -/
def truncate_buf (st : BrowserState) : BrowserState :=
  { st with buf := "" }

/-- `Browser._setup_data`: for GET with data, append the payload to the URL
with `?` or `&` depending on whether the URL already has a query part; the
payload itself is returned unchanged (the `POSTFIELDS` setopt is a
transport concern). -/
def setup_data (url method : String) (data : Option String) : String × Option String :=
  match data with
  | none => (url, none)
  | some d =>
    if method = "GET" then
      (url ++ (if ('?' ∈ url.data) then "&" else "?") ++ d, some d)
    else
      (url, some d)

/-- `Browser._setup_canned_response`: write `can.src` into the buffer,
`reset`, record the canned roundtrip and `canned_url`, return `can.code`. -/
def setup_canned_response (st : BrowserState) (can : CannedResponse) (url : String) : Nat × BrowserState :=
  (can.code,
   { Browser.reset { st with buf := st.buf ++ can.src } with
       roundtrip := some can.roundtrip, canned_url := some url })

/-- The `while retries >= 0 and exception is not None` loop of
`_setup_http_response`.  `transport i` is attempt `i` of `curl.perform()`:
`none` means success, `some msg` a `pycurl.error`.  Returns the final
exception state together with the number of attempts performed; the budget
argument counts the retries remaining after the current attempt. -/
def retry_loop (transport : Nat → Option String) : Nat → Nat → Option String × Nat
  | start, 0 => (transport start, 1)
  | start, budget + 1 =>
    match transport start with
    | none => (none, 1)
    | some _ =>
      match retry_loop transport (start + 1) budget with
      | (r, n) => (r, n + 1)

/-- `Browser._setup_http_response`: run the retry loop with budget
`retries`; if an exception survives, raise it, else `reset`, record the
elapsed roundtrip (`rtLive`, wall clock across the whole loop) and the new
buffer/effective URL, and return the transport's response code. -/
def setup_http_response (st : BrowserState) (transport : Nat → Option String)
    (respCode : Nat) (body : String) (rtLive : Nat) (url : String) :
    Except PyExc (Nat × BrowserState) :=
  match retry_loop transport 0 st.retries with
  | (some e, _) => .error (.pycurlError e)
  | (none, _) =>
    .ok (respCode,
         { Browser.reset { st with buf := st.buf ++ body, curl_url := url } with
             roundtrip := some rtLive })

/-- The body of the `try:` block in `go`: resolve a can; a stored
`can.exception` is raised from inside the block, so it is subject to the
surrounding `except KeyError`. -/
def go_attempt (st : BrowserState) (u m : String) (d : Option String) :
    Except PyExc (Nat × BrowserState) :=
  match select_best_can u m d st.canned with
  | .ok can =>
    match can.exception with
    | some e => .error e
    | none => .ok (setup_canned_response st can u)
  | .error e => .error e

/-- `Browser.go`: truncate the buffer, upper-case the method, rewrite
url/data via `_setup_data`, then try the canned path; exactly a `KeyError`
escaping the `try` block selects the offline check / live-fetch fallback,
every other exception propagates. -/
def go (st : BrowserState) (transport : Nat → Option String) (respCode : Nat)
    (body : String) (rtLive : Nat) (url0 method0 : String) (data0 : Option String) :
    Except PyExc (Nat × BrowserState) :=
  match go_attempt (truncate_buf st) (setup_data url0 (py_upper method0) data0).1
      (py_upper method0) (setup_data url0 (py_upper method0) data0).2 with
  | .ok res => .ok res
  | .error e =>
    if e = PyExc.keyError then
      if st.offline then
        .error (.offlineNoMatch
          ((setup_data url0 (py_upper method0) data0).1, py_upper method0,
           (setup_data url0 (py_upper method0) data0).2)
          (st.canned.map (fun p => (p.1.url, p.1.method, p.1.payload))))
      else
        setup_http_response (truncate_buf st) transport respCode body rtLive
          (setup_data url0 (py_upper method0) data0).1
    else
      .error e

/-- Python dict lookup on `_form_data`. -/
def dict_get (d : List (String × String)) (k : String) : Option String :=
  (d.find? (fun p => decide (p.1 = k))).map (·.2)

/-- Python dict update `d[k] = v` on `_form_data`: overwrite in place if
the key is bound, else append. -/
def dict_update (d : List (String × String)) (k v : String) : List (String × String) :=
  if d.any (fun p => decide (p.1 = k)) then
    d.map (fun p => if p.1 = k then (k, v) else p)
  else
    d ++ [(k, v)]

/-- The `form_submits` property on an already-selected form (the
`self._form is not None` assertion is the enclosing match in the callers):
asserts at least one submit input exists, then enumerates them with their
`__number`. -/
def form_submits_of (f : Form) : Except PyExc (List (Nat × SubmitInput)) :=
  if f.submits.length > 0 then
    .ok f.submits.enum
  else
    .error (.assertionError "The selected form must contain a submit button")

/-- The duck-typed `submit_button` argument of `form_submit`, resolved at
the boundary: a positional index or a name/value string (the
`except TypeError` path in the source). -/
inductive Selector where
  | idx : Nat → Selector
  | key : String → Selector
deriving DecidableEq, Repr

/-- `submit_button in s.values()`: the values of the submit dict are the
`__number` (an int, never equal to a string) and the `name`/`value`
attributes when present. -/
def submit_matches (s : SubmitInput) (q : String) : Bool :=
  decide (s.name = some q) || decide (s.value = some q)

/-- `submits[0 if submit_button is None else submit_button]` with the
`except TypeError` name/value fallback
`submits[[s for s in submits if submit_button in s.values()][0]['__number']]`;
out-of-range and no-match both raise `IndexError`. -/
def resolve_submit (submits : List (Nat × SubmitInput)) (sel : Option Selector) :
    Except PyExc (Nat × SubmitInput) :=
  match sel with
  | none =>
    match submits[0]? with
    | some s => .ok s
    | none => .error .indexError
  | some (.idx i) =>
    match submits[i]? with
    | some s => .ok s
    | none => .error .indexError
  | some (.key q) =>
    match (submits.filter (fun p => submit_matches p.2 q)).head? with
    | none => .error .indexError
    | some (n, _) =>
      match submits[n]? with
      | some s => .ok s
      | none => .error .indexError

/-- `form_submit_data(method, action, data)`: assert both method and action
are supplied (method is always a string in the model, so only the action
assertion can fire) and hand `(method, action, data)` to `go`.  The model
returns that triple; the `go` call itself is `go` above, composed by the
caller. -/
def form_submit_data (method : String) (action : Option String)
    (data : List (String × String)) : Except PyExc (String × String × List (String × String)) :=
  match action with
  | none => .error (.assertionError "action must be supplied")
  | some a => .ok (method, a, data)

/-- `Browser.form_submit(submit_button=None)` up to the `go` delegation:
assert a form is selected, enumerate submits (assert non-empty), assert the
choice is unambiguous, resolve the button, merge its name/value pair
(value defaulting to `''`) into `_form_data`, substitute the session URL
for an absent action, and build the `(method, action, data)` request. -/
def form_submit (st : BrowserState) (sel : Option Selector) :
    Except PyExc (String × String × List (String × String)) :=
  match st.form with
  | none => .error (.assertionError "A form must be selected")
  | some f =>
    match form_submits_of f with
    | .error e => .error e
    | .ok submits =>
      if submits.length ≤ 1 || sel.isSome then
        match
          (if 0 < submits.length then
            match resolve_submit submits sel with
            | .error e => .error e
            | .ok (_, s) =>
              .ok (match s.name with
                   | some n => dict_update st.form_data n (s.value.getD "")
                   | none => st.form_data)
          else .ok st.form_data : Except PyExc (List (String × String))) with
        | .error e => .error e
        | .ok fd =>
          form_submit_data f.method (some (f.action.getD (browser_url st))) fd
      else
        .error (.assertionError "Implicit submit is not possible")

/-- `Browser.form_submit_no_button`: assert a form is selected and submit
its raw method/action/data; an absent action fails `form_submit_data`'s
assertion rather than falling back to the session URL. -/
def form_submit_no_button (st : BrowserState) :
    Except PyExc (String × String × List (String × String)) :=
  match st.form with
  | none => .error (.assertionError "A form must be selected")
  | some f => form_submit_data f.method f.action st.form_data

/-- Spec-side predicate used in hypotheses: a registered key `k` sharing
`(url, method)` does not disturb the selection of reference payload `R`
for incoming payload `P` when its payload is non-absent and is either `R`
itself, or not a token-subset of `P`, or strictly farther from `P` in
encoded length than `R` is. -/
def candOK (R P : String) (k : RequestKey) : Bool :=
  match k.payload with
  | none => false
  | some D => decide (D = R) || !(post_data_present D P) || decide (pydiff R P < pydiff D P)

/-- Spec-side predicate used in hypotheses: a registered key `k` sharing
`(url, method)` has a non-absent payload that is not a token-subset of the
incoming payload `P` (so it survives neither the crash nor the filter). -/
def candNoFit (P : String) (k : RequestKey) : Bool :=
  match k.payload with
  | none => false
  | some D => !(post_data_present D P)


/-! ## Lemmas about the best-fit matching algorithm -/

lemma cans_get_of_mem (cans : List (RequestKey × CannedResponse)) (k : RequestKey)
    (v : CannedResponse) (hnd : (cans.map Prod.fst).Nodup) (hmem : (k, v) ∈ cans) :
    cans_get cans k = some v := by
  induction cans with
  | nil => cases hmem
  | cons p rest ih =>
    simp only [List.map_cons, List.nodup_cons] at hnd
    rcases List.mem_cons.mp hmem with heq | htail
    · subst heq
      simp [cans_get, List.find?_cons_of_pos]
    · have hne : p.1 ≠ k := by
        intro h
        exact hnd.1 (h ▸ List.mem_map_of_mem Prod.fst htail)
      have hstep : cans_get (p :: rest) k = cans_get rest k := by
        simp only [cans_get]
        rw [List.find?_cons_of_neg]
        simp [hne]
      rw [hstep]
      exact ih hnd.2 htail

lemma best_fit_survivors_eq (P : String) (cand : List (Option String))
    (hn : none ∉ cand) :
    best_fit_survivors P cand =
      .ok ((cand.filterMap id).filter (fun d => post_data_present d P)) := by
  induction cand with
  | nil => rfl
  | cons x rest ih =>
    cases x with
    | none => exact absurd (List.mem_cons_self _ _) hn
    | some d =>
      have hn2 : none ∉ rest := fun h => hn (List.mem_cons_of_mem _ h)
      simp only [best_fit_survivors, ih hn2, List.filterMap_cons, id]
      by_cases hd : post_data_present d P = true
      · simp [hd, List.filter_cons]
      · simp only [Bool.not_eq_true] at hd
        simp [hd, List.filter_cons]

lemma best_fit_survivors_sub (P : String) :
    ∀ (cand : List (Option String)) (S : List String),
      best_fit_survivors P cand = .ok S → ∀ y ∈ S, post_data_present y P = true := by
  intro cand
  induction cand with
  | nil =>
    intro S hS y hy
    simp only [best_fit_survivors] at hS
    cases hS
    cases hy
  | cons x rest ih =>
    intro S hS y hy
    cases x with
    | none => simp [best_fit_survivors] at hS
    | some d =>
      simp only [best_fit_survivors] at hS
      cases hrec : best_fit_survivors P rest with
      | error e => rw [hrec] at hS; cases hS
      | ok l =>
        rw [hrec] at hS
        simp only [Except.ok.injEq] at hS
        subst hS
        by_cases hd : post_data_present d P = true
        · rw [if_pos hd] at hy
          rcases List.mem_cons.mp hy with rfl | hyl
          · exact hd
          · exact ih l hrec y hyl
        · rw [if_neg hd] at hy
          exact ih l hrec y hy

lemma argmin_first_mem (f : String → Nat) :
    ∀ (l : List String) (y : String), argmin_first f l = some y → y ∈ l := by
  intro l
  induction l with
  | nil => intro y h; cases h
  | cons x xs ih =>
    intro y h
    cases hxs : argmin_first f xs with
    | none =>
      simp only [argmin_first, hxs, Option.some.injEq] at h
      subst h
      exact List.mem_cons_self _ _
    | some z =>
      simp only [argmin_first, hxs] at h
      by_cases hle : f x ≤ f z
      · rw [if_pos hle] at h
        injection h with h2
        subst h2
        exact List.mem_cons_self _ _
      · rw [if_neg hle] at h
        injection h with h2
        subst h2
        exact List.mem_cons_of_mem _ (ih z hxs)

lemma argmin_first_unique (f : String → Nat) :
    ∀ (l : List String) (x : String), x ∈ l →
      (∀ y ∈ l, y ≠ x → f x < f y) → argmin_first f l = some x := by
  intro l
  induction l with
  | nil => intro x hx _; cases hx
  | cons a xs ih =>
    intro x hx hmin
    by_cases hax : a = x
    · subst hax
      cases hxs : argmin_first f xs with
      | none => simp [argmin_first, hxs]
      | some y =>
        have hy := argmin_first_mem f xs y hxs
        by_cases hya : y = a
        · subst hya
          simp [argmin_first, hxs]
        · have hlt := hmin y (List.mem_cons_of_mem _ hy) hya
          simp [argmin_first, hxs, Nat.le_of_lt hlt]
    · have hxxs : x ∈ xs := by
        rcases List.mem_cons.mp hx with h | h
        · exact absurd h.symm hax
        · exact h
      have hrec := ih x hxxs (fun y hy hne => hmin y (List.mem_cons_of_mem _ hy) hne)
      have hlt := hmin a (List.mem_cons_self _ _) hax
      simp [argmin_first, hrec, if_neg (Nat.not_le.mpr hlt)]

lemma post_data_present_refl (s : String) : post_data_present s s = true := by
  simp [post_data_present, List.all_eq_true]

lemma mem_filterMap_id {l : List (Option String)} {b : String} :
    b ∈ l.filterMap id ↔ some b ∈ l := by
  rw [List.mem_filterMap]
  constructor
  · rintro ⟨a, ha, hab⟩; cases a <;> simp_all
  · intro h; exact ⟨some b, h, rfl⟩

/-- The central fact about `select_best_can` on a non-absent payload: if a
registered key `(url, method, R)` has  `R` a token-subset of the incoming
payload `P` and every other key sharing `(url, method)` satisfies
`candOK R P` (non-absent payload; equal to `R`, or not a subset of `P`, or
strictly farther in length), then the registered response for `R` is
selected. -/
lemma select_best_can_unique_min (cans : List (RequestKey × CannedResponse))
    (url method P R : String) (canR : CannedResponse)
    (hnd : (cans.map Prod.fst).Nodup)
    (hmem : (⟨url, method, some R⟩, canR) ∈ cans)
    (hpres : post_data_present R P = true)
    (hcand : ∀ k ∈ cans.map Prod.fst, k.url = url → k.method = method → candOK R P k = true) :
    select_best_can url method (some P) cans = .ok canR := by
  set cand := canned_key_partial_subset (url, method) (cans.map Prod.fst) with hcanddef
  have hmatch : ∀ k ∈ cans.map Prod.fst, k.url = url → k.method = method →
      ∃ D, k.payload = some D ∧
        (decide (D = R) || !(post_data_present D P) || decide (pydiff R P < pydiff D P)) = true := by
    intro k hk hu hm
    have := hcand k hk hu hm
    cases hp : k.payload with
    | none => rw [candOK, hp] at this; cases this
    | some D => rw [candOK, hp] at this; exact ⟨D, rfl, this⟩
  have hnone : none ∉ cand := by
    intro hmemnone
    rw [hcanddef] at hmemnone
    simp only [canned_key_partial_subset, List.mem_map] at hmemnone
    rcases hmemnone with ⟨k, hkf, hkp⟩
    rw [List.mem_filter] at hkf
    have hprop := of_decide_eq_true hkf.2
    rcases hmatch k hkf.1 hprop.1 hprop.2 with ⟨D, hD, _⟩
    rw [hD] at hkp
    cases hkp
  have hRmem : some R ∈ cand := by
    rw [hcanddef]
    simp only [canned_key_partial_subset, List.mem_map]
    refine ⟨⟨url, method, some R⟩, ?_, rfl⟩
    rw [List.mem_filter]
    exact ⟨List.mem_map_of_mem Prod.fst hmem, by simp⟩
  set S := (cand.filterMap id).filter (fun d => post_data_present d P) with hSdef
  have hsurv : best_fit_survivors P cand = .ok S := best_fit_survivors_eq P cand hnone
  have hRS : R ∈ S := by
    rw [hSdef, List.mem_filter]
    exact ⟨mem_filterMap_id.mpr hRmem, hpres⟩
  have hmin : ∀ y ∈ S, y ≠ R → pydiff R P < pydiff y P := by
    intro y hyS hyne
    rw [hSdef, List.mem_filter] at hyS
    have hycand : some y ∈ cand := mem_filterMap_id.mp hyS.1
    rw [hcanddef] at hycand
    simp only [canned_key_partial_subset, List.mem_map] at hycand
    rcases hycand with ⟨k, hkf, hkp⟩
    rw [List.mem_filter] at hkf
    have hprop := of_decide_eq_true hkf.2
    rcases hmatch k hkf.1 hprop.1 hprop.2 with ⟨D, hD, hok⟩
    rw [hD] at hkp
    cases hkp
    rcases Bool.or_eq_true_iff.mp hok with hor | hlt
    · rcases Bool.or_eq_true_iff.mp hor with heq | hnp
      · exact absurd (of_decide_eq_true heq) hyne
      · rw [hyS.2] at hnp; cases hnp
    · exact of_decide_eq_true hlt
  have hargmin : argmin_first (fun d => pydiff d P) S = some R :=
    argmin_first_unique _ S R hRS hmin
  have hbest : post_best_fit P cand = .ok R := by
    rw [post_best_fit]
    simp only [hsurv, hargmin]
  have hget : cans_get cans ⟨url, method, some R⟩ = some canR :=
    cans_get_of_mem cans _ canR hnd hmem
  rw [select_best_can, ← hcanddef]
  simp only [hbest, hget]

/-! ## Claims -/

/-- C1 (amended): an exactly registered key round-trips through
`select_best_can`: always when its payload is absent; and, when its payload
is `p`, provided every other registered key sharing `(url, method)` has a
non-absent payload that is either not a token-subset of `p` or strictly
farther from `p` in encoded length (`candOK p p`).  Without that proviso
(a tied subset candidate, or an absent-payload sibling key) the original
claim fails, see the counterexample. -/
theorem c1_exact_roundtrip :
    (∀ (cans : List (RequestKey × CannedResponse)) (url method : String) (can : CannedResponse),
       (cans.map Prod.fst).Nodup →
       (⟨url, method, none⟩, can) ∈ cans →
       select_best_can url method none cans = .ok can)
    ∧ (∀ (cans : List (RequestKey × CannedResponse)) (url method p : String) (can : CannedResponse),
       (cans.map Prod.fst).Nodup →
       (⟨url, method, some p⟩, can) ∈ cans →
       (∀ k ∈ cans.map Prod.fst, k.url = url → k.method = method → candOK p p k = true) →
       select_best_can url method (some p) cans = .ok can) := by
  constructor
  · intro cans url method can hnd hmem
    rw [select_best_can]
    simp only [cans_get_of_mem cans _ can hnd hmem]
  · intro cans url method p can hnd hmem hcand
    exact select_best_can_unique_min cans url method p p can hnd hmem
      (post_data_present_refl p) hcand

/-- C1 witness: a `None`-payload key and an exact payload key both
round-trip on registries satisfying the proviso. -/
theorem c1_exact_roundtrip_witness :
    select_best_can "http://x/a" "GET" none
      [(⟨"http://x/a", "GET", none⟩, { src := "n" })] = .ok { src := "n" }
    ∧ select_best_can "http://x/a" "GET" (some "q=cat")
      [(⟨"http://x/a", "GET", some "q=cat"⟩, { src := "c" }),
       (⟨"http://x/a", "GET", some "a=1&b=2&c=3"⟩, { src := "o" })] = .ok { src := "c" } :=
  ⟨c1_exact_roundtrip.1 _ "http://x/a" "GET" { src := "n" } (by decide) (by decide),
   c1_exact_roundtrip.2 _ "http://x/a" "GET" "q=cat" { src := "c" }
     (by decide) (by decide) (by decide)⟩

/-- C1 counterexample: two registered keys whose payloads have equal token
sets and equal length (`"a=1&b=2"` and `"b=2&a=1"`).  Resolving the second
registered key exactly returns the FIRST key's response, so the exact
round-trip claim fails for the second entry.  (Under Python's unspecified
dict ordering one of the two entries must fail in the same way, whichever
order the dict happens to use, because both queries resolve to the same
single response.) -/
theorem c1_exact_roundtrip_counterexample :
    select_best_can "u" "POST" (some "b=2&a=1")
      [(⟨"u", "POST", some "a=1&b=2"⟩, { src := "one" }),
       (⟨"u", "POST", some "b=2&a=1"⟩, { src := "two" })] = .ok { src := "one" }
    ∧ ({ src := "one" } : CannedResponse) ≠ { src := "two" } := by
  decide

/-- C2 (amended): with a non-absent incoming payload `P`, if a registered
reference payload `R` sharing `(url, method)` is a token-subset of `P` and
every OTHER key sharing `(url, method)` has a non-absent payload that is
either not a token-subset of `P` or strictly farther from `P` in length
(i.e. `R` is the unique minimiser, `candOK R P`), then `resolve` selects
`R`'s response; and whatever payload the fallback selects always passes the
token-subset test (non-subset candidates are discarded).  The original
"no other candidate strictly smaller" version fails on ties, see the
counterexample. -/
theorem c2_subset_best_fit :
    (∀ (cans : List (RequestKey × CannedResponse)) (url method P R : String) (canR : CannedResponse),
       (cans.map Prod.fst).Nodup →
       (⟨url, method, some R⟩, canR) ∈ cans →
       post_data_present R P = true →
       (∀ k ∈ cans.map Prod.fst, k.url = url → k.method = method → candOK R P k = true) →
       select_best_can url method (some P) cans = .ok canR)
    ∧ (∀ (P : String) (cand : List (Option String)) (best : String),
       post_best_fit P cand = .ok best → post_data_present best P = true) := by
  constructor
  · exact fun cans url method P R canR hnd hmem hpres hcand =>
      select_best_can_unique_min cans url method P R canR hnd hmem hpres hcand
  · intro P cand best h
    rw [post_best_fit] at h
    cases hs : best_fit_survivors P cand with
    | error e => rw [hs] at h; cases h
    | ok survivors =>
      rw [hs] at h
      cases ha : argmin_first (fun d => pydiff d P) survivors with
      | none => simp only [ha] at h; cases h
      | some d =>
        simp only [ha, Except.ok.injEq] at h
        subst h
        exact best_fit_survivors_sub P cand survivors hs _
          (argmin_first_mem _ survivors _ ha)

/-- C2 witness: the spec's scenario — `q=cat` registered, incoming
`q=cat&sort=asc` resolves to it via the subset fallback, while a non-subset
candidate that is closer in length is discarded. -/
theorem c2_subset_best_fit_witness :
    select_best_can "http://x/search" "GET" (some "q=cat&sort=asc")
      [(⟨"http://x/search", "GET", some "q=cat"⟩, { src := "cats" }),
       (⟨"http://x/search", "GET", some "q=dog&sort=asc"⟩, { src := "dogs" })] = .ok { src := "cats" }
    ∧ post_data_present "q=cat" "q=cat&sort=asc" = true :=
  ⟨c2_subset_best_fit.1 _ "http://x/search" "GET" "q=cat&sort=asc" "q=cat" { src := "cats" }
     (by decide) (by decide) (by decide) (by decide),
   c2_subset_best_fit.2 "q=cat&sort=asc"
     [some "q=cat", some "q=dog&sort=asc"] "q=cat" (by decide)⟩

/-- C2 counterexample: incoming `"a=1&b=2"`, registered candidates `"a=1"`
and `"b=2"`, both token-subsets with the same length difference (4), with
distinct responses.  `R = "b=2"` satisfies the claim's hypotheses — no
other surviving candidate has a STRICTLY smaller difference — yet resolve
returns the other response, so the claim as stated is false.  (Whatever
order Python's dict yields, at most one of the two tied candidates can be
selected, so the universally quantified claim fails in every ordering.) -/
theorem c2_subset_best_fit_counterexample :
    post_data_present "b=2" "a=1&b=2" = true
    ∧ pydiff "a=1" "a=1&b=2" = pydiff "b=2" "a=1&b=2"
    ∧ select_best_can "u" "POST" (some "a=1&b=2")
        [(⟨"u", "POST", some "a=1"⟩, { src := "one" }),
         (⟨"u", "POST", some "b=2"⟩, { src := "two" })] = .ok { src := "one" }
    ∧ ({ src := "one" } : CannedResponse) ≠ { src := "two" } := by
  decide

/-- C4: the spec says absent-payload keys are filtered out of the fallback
collection, so a registry containing both `(u, GET, None)` and
`(u, GET, "a=1")` should resolve `(u, GET, "a=1")` to its exact entry.  The
code omits the filter in `canned_key_partial_subset`, hands `None` to
`d.split('&')` inside `post_data_present`, and crashes with
`AttributeError` — even though an exact key is registered. -/
theorem c4_none_payload_crash :
    select_best_can "u" "GET" (some "a=1")
      [(⟨"u", "GET", none⟩, { src := "none-can" }),
       (⟨"u", "GET", some "a=1"⟩, { src := "exact" })] = .error .attributeError
    ∧ canned_key_partial_subset ("u", "GET")
        [⟨"u", "GET", none⟩, ⟨"u", "GET", some "a=1"⟩] = [none, some "a=1"] := by
  decide

/-! ## Retry loop lemmas -/

lemma retry_loop_all_fail (t : Nat → Option String) (e : Nat → String) :
    ∀ (budget start : Nat),
      (∀ i, i ≤ budget → t (start + i) = some (e (start + i))) →
      retry_loop t start budget = (some (e (start + budget)), budget + 1) := by
  intro budget
  induction budget with
  | zero =>
    intro start h
    have h0 := h 0 (Nat.le_refl 0)
    simp only [Nat.add_zero] at h0 ⊢
    simp [retry_loop, h0]
  | succ b ih =>
    intro start h
    have h0 := h 0 (Nat.zero_le _)
    rw [Nat.add_zero] at h0
    have hrec := ih (start + 1) (by
      intro i hi
      have := h (i + 1) (Nat.succ_le_succ hi)
      rwa [show start + (i + 1) = start + 1 + i by omega] at this)
    simp only [retry_loop, h0, hrec]
    rw [show start + 1 + b = start + (b + 1) by omega]

lemma retry_loop_first_success (t : Nat → Option String) :
    ∀ (k budget start : Nat), k ≤ budget →
      (∀ i, i < k → t (start + i) ≠ none) →
      t (start + k) = none →
      retry_loop t start budget = (none, k + 1) := by
  intro k
  induction k with
  | zero =>
    intro budget start _ _ hk
    rw [Nat.add_zero] at hk
    cases budget with
    | zero => simp [retry_loop, hk]
    | succ b => simp [retry_loop, hk]
  | succ k ih =>
    intro budget start hkb hfail hk
    cases budget with
    | zero => omega
    | succ b =>
      have h0 : t start ≠ none := by
        have := hfail 0 (Nat.succ_pos k)
        rwa [Nat.add_zero] at this
      cases ht : t start with
      | none => exact absurd ht h0
      | some msg =>
        have hrec := ih b (start + 1) (Nat.le_of_succ_le_succ hkb)
          (by
            intro i hi
            have := hfail (i + 1) (Nat.succ_lt_succ hi)
            rwa [show start + (i + 1) = start + 1 + i by omega] at this)
          (by rwa [show start + 1 + k = start + (k + 1) by omega])
        simp [retry_loop, ht, hrec]

/-- C5: with retry budget `N` (`self.retries = N`), under sustained
transport failure the loop performs exactly `N + 1` attempts and
`_setup_http_response` raises the error observed on the LAST attempt; and
when attempt `k ≤ N` is the first success, exactly `k + 1` attempts are
made and no further ones. -/
theorem c5_retry_budget :
    (∀ (st : BrowserState) (t : Nat → Option String) (r : Nat) (b : String)
       (rt : Nat) (url : String) (N : Nat) (e : Nat → String),
       st.retries = N →
       (∀ i, i ≤ N → t i = some (e i)) →
       retry_loop t 0 N = (some (e N), N + 1) ∧
       setup_http_response st t r b rt url = .error (.pycurlError (e N)))
    ∧ (∀ (t : Nat → Option String) (N k : Nat), k ≤ N →
       (∀ i, i < k → t i ≠ none) → t k = none →
       retry_loop t 0 N = (none, k + 1)) := by
  constructor
  · intro st t r b rt url N e hN h
    have hall : ∀ i, i ≤ N → t (0 + i) = some (e (0 + i)) := by
      intro i hi
      rw [Nat.zero_add]
      exact h i hi
    have hloop := retry_loop_all_fail t e N 0 hall
    rw [Nat.zero_add] at hloop
    refine ⟨hloop, ?_⟩
    rw [setup_http_response, hN]
    simp only [hloop]
  · intro t N k hkN hfail hk
    have hloop := retry_loop_first_success t k N 0 hkN
      (by intro i hi; rw [Nat.zero_add]; exact hfail i hi)
      (by rwa [Nat.zero_add])
    exact hloop

/-- C5 witness: budget 2 with a transport that always fails makes exactly 3
attempts and raises the last error; a transport that succeeds on the second
attempt under budget 5 stops after exactly 2 attempts. -/
theorem c5_retry_budget_witness :
    retry_loop (fun _ => some "down") 0 2 = (some "down", 3)
    ∧ setup_http_response { retries := 2 } (fun _ => some "down") 200 "b" 9 "u"
        = .error (.pycurlError "down")
    ∧ retry_loop (fun i => if i = 0 then some "first" else none) 0 5 = (none, 2) :=
  ⟨(c5_retry_budget.1 { retries := 2 } (fun _ => some "down") 200 "b" 9 "u" 2
      (fun _ => "down") rfl (fun i _ => rfl)).1,
   (c5_retry_budget.1 { retries := 2 } (fun _ => some "down") 200 "b" 9 "u" 2
      (fun _ => "down") rfl (fun i _ => rfl)).2,
   c5_retry_budget.2 (fun i => if i = 0 then some "first" else none) 5 1
     (by decide) (by decide) (by decide)⟩

/-! ## Navigation lemmas -/

lemma truncate_buf_canned (st : BrowserState) : (truncate_buf st).canned = st.canned := rfl

lemma go_attempt_ok_reset (st0 : BrowserState) (u m : String) (d : Option String)
    (p : Nat × BrowserState) (h : go_attempt st0 u m d = .ok p) :
    p.2.form = none ∧ p.2.form_data = [] ∧ p.2.tree = none := by
  rw [go_attempt] at h
  cases hsel : select_best_can u m d st0.canned with
  | error e => simp only [hsel] at h; cases h
  | ok can =>
    simp only [hsel] at h
    cases hexc : can.exception with
    | some e => simp only [hexc] at h; cases h
    | none =>
      simp only [hexc, Except.ok.injEq] at h
      subst h
      simp [setup_canned_response, Browser.reset]

lemma setup_http_ok_reset (st0 : BrowserState) (t : Nat → Option String) (r : Nat)
    (b : String) (rt : Nat) (u : String) (p : Nat × BrowserState)
    (h : setup_http_response st0 t r b rt u = .ok p) :
    p.2.form = none ∧ p.2.form_data = [] ∧ p.2.tree = none := by
  rw [setup_http_response] at h
  cases hr : retry_loop t 0 st0.retries with
  | mk oe n =>
    cases oe with
    | some e => simp only [hr] at h; cases h
    | none =>
      simp only [hr, Except.ok.injEq] at h
      subst h
      simp [Browser.reset]

/-- C3 (amended): the offline check and the live-fetch fallback apply
exactly when the canned lookup raises `KeyError`, which happens for
payload-absent requests with no exact key: offline mode then fails with
the diagnostic `offlineNoMatch` error carrying the attempted key and the
registry key set, and online mode falls through to the live fetch.  For a
payload-BEARING request with no surviving fallback candidate, however,
`post_best_fit` raises `IndexError`, which the `except KeyError` in `go`
does not catch: the call fails with `IndexError` whatever `offline` is,
and never reaches the live fetch.  The original claim (offline/live
behaviour "including payload-bearing requests") is therefore false, see
the counterexample. -/
theorem c3_offline_no_match :
    (∀ (st : BrowserState) (t : Nat → Option String) (r : Nat) (b : String)
       (rt : Nat) (url method : String),
       cans_get st.canned ⟨url, py_upper method, none⟩ = none →
       st.offline = true →
       go st t r b rt url method none =
         .error (.offlineNoMatch (url, py_upper method, none)
           (st.canned.map (fun p => (p.1.url, p.1.method, p.1.payload)))))
    ∧ (∀ (st : BrowserState) (t : Nat → Option String) (r : Nat) (b : String)
       (rt : Nat) (url method : String),
       cans_get st.canned ⟨url, py_upper method, none⟩ = none →
       st.offline = false →
       go st t r b rt url method none =
         setup_http_response (truncate_buf st) t r b rt url)
    ∧ (∀ (st : BrowserState) (t : Nat → Option String) (r : Nat) (b : String)
       (rt : Nat) (url method d : String),
       (∀ k ∈ st.canned.map Prod.fst,
          k.url = (setup_data url (py_upper method) (some d)).1 →
          k.method = py_upper method → candNoFit d k = true) →
       go st t r b rt url method (some d) = .error .indexError) := by
  refine ⟨?_, ?_, ?_⟩
  · intro st t r b rt url method hget hoff
    have hsel : select_best_can url (py_upper method) none st.canned = .error .keyError := by
      rw [select_best_can]
      simp only [hget]
    have hattempt : go_attempt (truncate_buf st) (setup_data url (py_upper method) none).1
        (py_upper method) (setup_data url (py_upper method) none).2 = .error .keyError := by
      rw [go_attempt, truncate_buf_canned]
      simp only [setup_data, hsel]
    rw [go, hattempt, hoff]
    rfl
  · intro st t r b rt url method hget hoff
    have hsel : select_best_can url (py_upper method) none st.canned = .error .keyError := by
      rw [select_best_can]
      simp only [hget]
    have hattempt : go_attempt (truncate_buf st) (setup_data url (py_upper method) none).1
        (py_upper method) (setup_data url (py_upper method) none).2 = .error .keyError := by
      rw [go_attempt, truncate_buf_canned]
      simp only [setup_data, hsel]
    rw [go, hattempt, hoff]
    rfl
  · intro st t r b rt url method d hall
    have hnone : none ∉ canned_key_partial_subset
        ((setup_data url (py_upper method) (some d)).1, py_upper method)
        (st.canned.map Prod.fst) := by
      intro hmem
      simp only [canned_key_partial_subset, List.mem_map] at hmem
      rcases hmem with ⟨k, hkf, hkp⟩
      rw [List.mem_filter] at hkf
      have hprop := of_decide_eq_true hkf.2
      have hco := hall k hkf.1 hprop.1 hprop.2
      rw [candNoFit, hkp] at hco
      cases hco
    have hnofit : ∀ y, some y ∈ canned_key_partial_subset
        ((setup_data url (py_upper method) (some d)).1, py_upper method)
        (st.canned.map Prod.fst) → post_data_present y d = false := by
      intro y hy
      simp only [canned_key_partial_subset, List.mem_map] at hy
      rcases hy with ⟨k, hkf, hkp⟩
      rw [List.mem_filter] at hkf
      have hprop := of_decide_eq_true hkf.2
      have hco := hall k hkf.1 hprop.1 hprop.2
      rw [candNoFit, hkp] at hco
      simpa using hco
    have hsurv := best_fit_survivors_eq d _ hnone
    have hfilter : ((canned_key_partial_subset
        ((setup_data url (py_upper method) (some d)).1, py_upper method)
        (st.canned.map Prod.fst)).filterMap id).filter
          (fun x => post_data_present x d) = [] := by
      rw [List.filter_eq_nil_iff]
      intro a ha
      have := hnofit a (mem_filterMap_id.mp ha)
      simp [this]
    have hbest : post_best_fit d (canned_key_partial_subset
        ((setup_data url (py_upper method) (some d)).1, py_upper method)
        (st.canned.map Prod.fst)) = .error .indexError := by
      rw [post_best_fit]
      simp only [hsurv, hfilter, argmin_first]
    have hsel : select_best_can (setup_data url (py_upper method) (some d)).1 (py_upper method)
        (some d) st.canned = .error .indexError := by
      rw [select_best_can]
      simp only [hbest]
    have h2 : (setup_data url (py_upper method) (some d)).2 = some d := by
      rw [setup_data]
      split <;> rfl
    have hattempt : go_attempt (truncate_buf st)
        (setup_data url (py_upper method) (some d)).1 (py_upper method)
        (setup_data url (py_upper method) (some d)).2 = .error .indexError := by
      rw [go_attempt, truncate_buf_canned, h2]
      simp only [hsel]
    rw [go, hattempt]
    rfl

/-- C3 witness: offline mode with an empty registry fails with the
diagnostic error on a payload-absent request; online mode falls through to
the live fetch; and a payload-bearing request whose only candidate is not a
token-subset fails with `IndexError`. -/
theorem c3_offline_no_match_witness :
    go { offline := true } (fun _ => none) 200 "b" 1 "u" "GET" none
      = .error (.offlineNoMatch ("u", py_upper "GET", none) [])
    ∧ go {} (fun _ => none) 200 "b" 1 "u" "GET" none
      = setup_http_response (truncate_buf {}) (fun _ => none) 200 "b" 1 "u"
    ∧ go { canned := [(⟨"u", "POST", some "x=9"⟩, {})], offline := true }
        (fun _ => none) 200 "b" 1 "u" "POST" (some "a=1") = .error .indexError :=
  ⟨c3_offline_no_match.1 { offline := true } (fun _ => none) 200 "b" 1 "u" "GET"
     (by decide) rfl,
   c3_offline_no_match.2.1 {} (fun _ => none) 200 "b" 1 "u" "GET" (by decide) rfl,
   c3_offline_no_match.2.2 { canned := [(⟨"u", "POST", some "x=9"⟩, {})], offline := true }
     (fun _ => none) 200 "b" 1 "u" "POST" "a=1" (by decide)⟩

/-- C3 counterexample: a payload-bearing request with no surviving fallback
candidate (empty registry).  In offline mode the call does NOT fail with
the diagnostic `offlineNoMatch` error, and in online mode it does NOT fall
through to the live fetch (the transport here would succeed): both fail
with the uncaught `IndexError` from `post_best_fit`. -/
theorem c3_offline_no_match_counterexample :
    go { offline := true } (fun _ => none) 200 "body" 1 "u" "POST" (some "a=1")
      = .error .indexError
    ∧ go {} (fun _ => none) 200 "body" 1 "u" "POST" (some "a=1")
      = .error .indexError
    ∧ PyExc.indexError ≠ .offlineNoMatch ("u", "POST", some "a=1") [] := by
  decide

/-- C6 (amended): a stored `can.exception` that is not a `KeyError`
propagates as-is as the outcome of `go`, for every transport oracle and
retry budget — the retry loop is never entered (the conclusion does not
depend on the transport or on `retries`).  A stored `KeyError`, however, is
swallowed by the `except KeyError` around the canned path and diverts to
the offline-check / live-fetch fallback, see the counterexample. -/
theorem c6_scripted_error_propagates :
    ∀ (st : BrowserState) (t : Nat → Option String) (r : Nat) (b : String) (rt : Nat)
      (url method : String) (data : Option String) (can : CannedResponse) (e : PyExc),
      select_best_can (setup_data url (py_upper method) data).1 (py_upper method)
        (setup_data url (py_upper method) data).2 st.canned = .ok can →
      can.exception = some e →
      e ≠ PyExc.keyError →
      go st t r b rt url method data = .error e := by
  intro st t r b rt url method data can e hsel hexc hne
  have hattempt : go_attempt (truncate_buf st) (setup_data url (py_upper method) data).1
      (py_upper method) (setup_data url (py_upper method) data).2 = .error e := by
    rw [go_attempt, truncate_buf_canned]
    simp only [hsel, hexc]
  rw [go, hattempt]
  simp [hne]

/-- C6 witness: a scripted non-`KeyError` error is the outcome even with a
positive retry budget, a transport that would succeed, and offline mode
set. -/
theorem c6_scripted_error_propagates_witness :
    go { retries := 3, canned := [(⟨"u", "GET", none⟩, { exception := some (.custom 7) })],
         offline := true }
      (fun _ => none) 200 "B" 1 "u" "GET" none = .error (.custom 7) :=
  c6_scripted_error_propagates
    { retries := 3, canned := [(⟨"u", "GET", none⟩, { exception := some (.custom 7) })],
      offline := true }
    (fun _ => none) 200 "B" 1 "u" "GET" none
    { exception := some (.custom 7) } (.custom 7) (by decide) rfl (by decide)

/-- C6 counterexample: a canned response whose stored error is a `KeyError`
does NOT propagate as-is.  In offline mode the call turns into the
diagnostic `offlineNoMatch` failure; in online mode it enters the live
fetch and returns its result (here a success), so the claim's "regardless
of the error's type" is false. -/
theorem c6_scripted_error_propagates_counterexample :
    go { canned := [(⟨"u", "GET", none⟩, { exception := some .keyError })], offline := true }
      (fun _ => none) 200 "B" 1 "u" "GET" none
      = .error (.offlineNoMatch ("u", "GET", none) [("u", "GET", none)])
    ∧ go { canned := [(⟨"u", "GET", none⟩, { exception := some .keyError })] }
        (fun _ => none) 200 "B" 1 "u" "GET" none
      = .ok (200, { canned := [(⟨"u", "GET", none⟩, { exception := some .keyError })],
                    roundtrip := some 1, buf := "B", curl_url := "u" })
    ∧ Except.error (.offlineNoMatch ("u", "GET", none) [("u", "GET", none)])
      ≠ (Except.error PyExc.keyError : Except PyExc (Nat × BrowserState)) := by
  decide

/-- C7: every successful navigation — replayed from a can or fetched live —
leaves the session with no selected form, an empty field-overrides mapping
and a cleared document tree (`reset`). -/
theorem c7_reset_after_success :
    ∀ (st : BrowserState) (t : Nat → Option String) (r : Nat) (b : String) (rt : Nat)
      (url method : String) (data : Option String) (code : Nat) (st2 : BrowserState),
      go st t r b rt url method data = .ok (code, st2) →
      st2.form = none ∧ st2.form_data = [] ∧ st2.tree = none := by
  intro st t r b rt url method data code st2 h
  rw [go] at h
  cases hA : go_attempt (truncate_buf st) (setup_data url (py_upper method) data).1
      (py_upper method) (setup_data url (py_upper method) data).2 with
  | ok p =>
    simp only [hA, Except.ok.injEq] at h
    have hres := go_attempt_ok_reset _ _ _ _ p hA
    rw [h] at hres
    simpa using hres
  | error e =>
    simp only [hA] at h
    by_cases he : e = PyExc.keyError
    · rw [if_pos he] at h
      cases hoff : st.offline with
      | true => simp [hoff] at h
      | false =>
        simp only [hoff, Bool.false_eq_true, if_false] at h
        simpa using setup_http_ok_reset _ t r b rt _ (code, st2) h
    · rw [if_neg he] at h
      simp at h

/-- C7 witness: a canned navigation and a live navigation, each evaluated
concretely, leave form/none, form-data/empty, tree/none. -/
theorem c7_reset_after_success_witness :
    (({ retries := 0, canned := [(⟨"u", "GET", none⟩, { src := "hello", roundtrip := 3 })],
        offline := false, tree := none, form := none, form_data := [],
        roundtrip := some 3, canned_url := some "u", buf := "hello",
        curl_url := "" } : BrowserState).form = none
      ∧ ({ retries := 0, canned := [(⟨"u", "GET", none⟩, { src := "hello", roundtrip := 3 })],
           offline := false, tree := none, form := none, form_data := [],
           roundtrip := some 3, canned_url := some "u", buf := "hello",
           curl_url := "" } : BrowserState).form_data = []
      ∧ ({ retries := 0, canned := [(⟨"u", "GET", none⟩, { src := "hello", roundtrip := 3 })],
           offline := false, tree := none, form := none, form_data := [],
           roundtrip := some 3, canned_url := some "u", buf := "hello",
           curl_url := "" } : BrowserState).tree = none)
    ∧ (({ roundtrip := some 4, buf := "live", curl_url := "w" } : BrowserState).form = none
      ∧ ({ roundtrip := some 4, buf := "live", curl_url := "w" } : BrowserState).form_data = []
      ∧ ({ roundtrip := some 4, buf := "live", curl_url := "w" } : BrowserState).tree = none) :=
  ⟨c7_reset_after_success
     { canned := [(⟨"u", "GET", none⟩, { src := "hello", roundtrip := 3 })] }
     (fun _ => none) 200 "b" 1 "u" "GET" none 200
     { retries := 0, canned := [(⟨"u", "GET", none⟩, { src := "hello", roundtrip := 3 })],
       offline := false, tree := none, form := none, form_data := [],
       roundtrip := some 3, canned_url := some "u", buf := "hello", curl_url := "" }
     (by decide),
   c7_reset_after_success {} (fun _ => none) 200 "live" 4 "w" "GET" none 200
     { roundtrip := some 4, buf := "live", curl_url := "w" } (by decide)⟩

/-! ## Form-submission lemmas -/

lemma find_q_map (d : List (String × String)) (k v q : String) (h : q ≠ k) :
    ((d.map fun p => if p.1 = k then (k, v) else p).find? fun p => decide (p.1 = q))
      = d.find? fun p => decide (p.1 = q) := by
  induction d with
  | nil => rfl
  | cons p rest ih =>
    by_cases hp : p.1 = k
    · simp only [List.map_cons, if_pos hp]
      rw [List.find?_cons_of_neg _ (by simp [Ne.symm h]),
          List.find?_cons_of_neg _ (by simp [hp, Ne.symm h])]
      exact ih
    · simp only [List.map_cons, if_neg hp]
      by_cases hq : p.1 = q
      · rw [List.find?_cons_of_pos _ (by simp [hq]), List.find?_cons_of_pos _ (by simp [hq])]
      · rw [List.find?_cons_of_neg _ (by simp [hq]), List.find?_cons_of_neg _ (by simp [hq])]
        exact ih

lemma find_q_append (d : List (String × String)) (k v q : String) (h : q ≠ k) :
    ((d ++ [(k, v)]).find? fun p => decide (p.1 = q)) = d.find? fun p => decide (p.1 = q) := by
  induction d with
  | nil =>
    rw [List.nil_append, List.find?_cons_of_neg _ (by simp [Ne.symm h])]
  | cons p rest ih =>
    rw [List.cons_append]
    by_cases hq : p.1 = q
    · rw [List.find?_cons_of_pos _ (by simp [hq]), List.find?_cons_of_pos _ (by simp [hq])]
    · rw [List.find?_cons_of_neg _ (by simp [hq]), List.find?_cons_of_neg _ (by simp [hq])]
      exact ih

lemma dict_get_update_ne (d : List (String × String)) (k v q : String) (h : q ≠ k) :
    dict_get (dict_update d k v) q = dict_get d q := by
  rw [dict_update]
  by_cases hany : d.any (fun p => decide (p.1 = k)) = true
  · rw [if_pos hany, dict_get, dict_get, find_q_map d k v q h]
  · rw [if_neg hany, dict_get, dict_get, find_q_append d k v q h]

/-- C8: on a selected form, `form_submit` with exactly one submit button
and no explicit selector builds the request (resolving that button); with
two or more buttons and no selector it fails with the ambiguous-submit
assertion; and on a form with zero submit buttons it fails with the
no-submit-button assertion raised by `form_submits`.  (`AmbiguousSubmit`
and `NoSubmitButton` in the spec are realised as these two `assert`
messages.) -/
theorem c8_submit_button_arity :
    (∀ (st : BrowserState) (f : Form) (s0 : SubmitInput),
       st.form = some f → f.submits = [s0] →
       ∃ m a d2, form_submit st none = .ok (m, a, d2))
    ∧ (∀ (st : BrowserState) (f : Form), st.form = some f → 2 ≤ f.submits.length →
       form_submit st none = .error (.assertionError "Implicit submit is not possible"))
    ∧ (∀ (st : BrowserState) (f : Form), st.form = some f → f.submits = [] →
       form_submit st none =
         .error (.assertionError "The selected form must contain a submit button")) := by
  refine ⟨?_, ?_, ?_⟩
  · intro st f s0 hform hs
    have hsub : form_submits_of f = .ok [(0, s0)] := by
      rw [form_submits_of, hs]
      rfl
    cases hn : s0.name with
    | none =>
      refine ⟨f.method, f.action.getD (browser_url st), st.form_data, ?_⟩
      rw [form_submit]
      simp [hform, hsub, resolve_submit, hn, form_submit_data]
    | some n =>
      refine ⟨f.method, f.action.getD (browser_url st),
              dict_update st.form_data n (s0.value.getD ""), ?_⟩
      rw [form_submit]
      simp [hform, hsub, resolve_submit, hn, form_submit_data]
  · intro st f hform hlen
    have hpos : 0 < f.submits.length := by omega
    have hsub : form_submits_of f = .ok f.submits.enum := by
      rw [form_submits_of, if_pos hpos]
    have hcond : (decide (f.submits.enum.length ≤ 1) || (none : Option Selector).isSome)
        = false := by
      simp only [List.enum_length, Option.isSome_none, Bool.or_false,
        decide_eq_false_iff_not]
      omega
    rw [form_submit]
    simp only [hform, hsub, hcond, Bool.false_eq_true, if_false]
  · intro st f hform hs
    have hsub : form_submits_of f =
        .error (.assertionError "The selected form must contain a submit button") := by
      rw [form_submits_of, hs]
      rfl
    rw [form_submit]
    simp only [hform, hsub]

/-- C8 witness: one button / two buttons / zero buttons, concretely. -/
theorem c8_submit_button_arity_witness :
    (∃ m a d2, form_submit
       { form := some { submits := [{ name := some "go", value := some "1" }] } } none
       = .ok (m, a, d2))
    ∧ form_submit
        { form := some { submits := [{ name := some "save" }, { name := some "del" }] } } none
      = .error (.assertionError "Implicit submit is not possible")
    ∧ form_submit { form := some { submits := [] } } none
      = .error (.assertionError "The selected form must contain a submit button") :=
  ⟨c8_submit_button_arity.1
     { form := some { submits := [{ name := some "go", value := some "1" }] } }
     { submits := [{ name := some "go", value := some "1" }] }
     { name := some "go", value := some "1" } rfl rfl,
   c8_submit_button_arity.2.1
     { form := some { submits := [{ name := some "save" }, { name := some "del" }] } }
     { submits := [{ name := some "save" }, { name := some "del" }] } rfl (by decide),
   c8_submit_button_arity.2.2
     { form := some { submits := [] } } { submits := [] } rfl rfl⟩

/-- C9: when the resolved submit button has a name, `form_submit` merges
exactly that button's name/value pair (value defaulting to the empty
string) into the outgoing data via a dict update, and the binding of every
other key — in particular every other submit button's name not already
present in the field overrides — is unchanged. -/
theorem c9_clicked_button_pair :
    ∀ (st : BrowserState) (f : Form) (sel : Option Selector) (i : Nat)
      (s : SubmitInput) (n : String),
      st.form = some f →
      0 < f.submits.length →
      (decide (f.submits.enum.length ≤ 1) || sel.isSome) = true →
      resolve_submit f.submits.enum sel = .ok (i, s) →
      s.name = some n →
      form_submit st sel =
        .ok (f.method, f.action.getD (browser_url st),
             dict_update st.form_data n (s.value.getD ""))
      ∧ ∀ q, q ≠ n →
          dict_get (dict_update st.form_data n (s.value.getD "")) q
            = dict_get st.form_data q := by
  intro st f sel i s n hform hpos hcond hres hname
  constructor
  · have hsub : form_submits_of f = .ok f.submits.enum := by
      rw [form_submits_of, if_pos hpos]
    have hpos2 : 0 < f.submits.enum.length := by
      rw [List.enum_length]
      exact hpos
    have hcondP : f.submits.length ≤ 1 ∨ sel.isSome = true := by
      simpa [List.enum_length] using hcond
    rw [form_submit]
    simp [hform, hsub, hcond, hcondP, hpos, hpos2, hres, hname, form_submit_data]
  · intro q hq
    exact dict_get_update_ne st.form_data n (s.value.getD "") q hq

/-- C9 witness: the spec scenario — two buttons named save/delete,
`submit("delete")` adds the delete pair to the outgoing payload and leaves
the binding of "save" (absent) unchanged. -/
theorem c9_clicked_button_pair_witness :
    form_submit
      { form := some { method := "POST", action := some "/a",
                       submits := [{ name := some "save", value := some "1" },
                                   { name := some "delete", value := some "2" }] },
        form_data := [("f", "v")] }
      (some (.key "delete"))
      = .ok ("POST", "/a", [("f", "v"), ("delete", "2")])
    ∧ dict_get (dict_update [("f", "v")] "delete" "2") "save" = dict_get [("f", "v")] "save" :=
  ⟨(c9_clicked_button_pair
      { form := some { method := "POST", action := some "/a",
                       submits := [{ name := some "save", value := some "1" },
                                   { name := some "delete", value := some "2" }] },
        form_data := [("f", "v")] }
      { method := "POST", action := some "/a",
        submits := [{ name := some "save", value := some "1" },
                    { name := some "delete", value := some "2" }] }
      (some (.key "delete")) 1 { name := some "delete", value := some "2" } "delete"
      rfl (by decide) (by decide) (by decide) rfl).1,
   (c9_clicked_button_pair
      { form := some { method := "POST", action := some "/a",
                       submits := [{ name := some "save", value := some "1" },
                                   { name := some "delete", value := some "2" }] },
        form_data := [("f", "v")] }
      { method := "POST", action := some "/a",
        submits := [{ name := some "save", value := some "1" },
                    { name := some "delete", value := some "2" }] }
      (some (.key "delete")) 1 { name := some "delete", value := some "2" } "delete"
      rfl (by decide) (by decide) (by decide) rfl).2 "save" (by decide)⟩

/-- C10: on a selected form whose action is absent,
`form_submit_no_button` fails with the "action must be supplied" assertion
of `form_submit_data` (no fallback), whereas any successful `form_submit`
on the same form substitutes the session's current URL for the absent
action. -/
theorem c10_action_fallback :
    (∀ (st : BrowserState) (f : Form), st.form = some f → f.action = none →
       form_submit_no_button st = .error (.assertionError "action must be supplied"))
    ∧ (∀ (st : BrowserState) (f : Form) (sel : Option Selector) (m a : String)
         (d2 : List (String × String)),
       st.form = some f → f.action = none →
       form_submit st sel = .ok (m, a, d2) → a = browser_url st) := by
  constructor
  · intro st f hform hact
    rw [form_submit_no_button]
    simp only [hform, hact, form_submit_data]
  · intro st f sel m a d2 hform hact h
    rw [form_submit] at h
    simp only [hform] at h
    cases hsub : form_submits_of f with
    | error e =>
      simp only [hsub] at h
      cases h
    | ok submits =>
      simp only [hsub] at h
      by_cases hcond : (decide (submits.length ≤ 1) || sel.isSome) = true
      · rw [if_pos hcond] at h
        split at h
        · cases h
        · simp only [form_submit_data, hact, Option.getD_none, Except.ok.injEq,
            Prod.mk.injEq] at h
          exact h.2.1.symm
      · rw [if_neg hcond] at h
        cases h

/-- C10 witness: a form with no action — `form_submit_no_button` asserts,
`form_submit` succeeds using the session URL. -/
theorem c10_action_fallback_witness :
    form_submit_no_button
      { form := some { action := none, submits := [{ name := some "s" }] },
        canned_url := some "http://cur" }
      = .error (.assertionError "action must be supplied")
    ∧ form_submit
        { form := some { action := none, submits := [{ name := some "s" }] },
          canned_url := some "http://cur" } none
      = .ok ("GET", "http://cur", [("s", "")])
    ∧ "http://cur" = browser_url
        { form := some { action := none, submits := [{ name := some "s" }] },
          canned_url := some "http://cur" } :=
  ⟨c10_action_fallback.1
     { form := some { action := none, submits := [{ name := some "s" }] },
       canned_url := some "http://cur" }
     { action := none, submits := [{ name := some "s" }] } rfl rfl,
   by decide,
   c10_action_fallback.2
     { form := some { action := none, submits := [{ name := some "s" }] },
       canned_url := some "http://cur" }
     { action := none, submits := [{ name := some "s" }] } none "GET" "http://cur"
     [("s", "")] rfl rfl (by decide)⟩
